import Mathlib

/-!
Shallow embedding of the MCTS dialogue-search engine of
`src/source/cot-reflection.ts` (classes `DialogueState`, `MCTSNode`, `MCTS`
and the `mcts` entry point), together with theorems settling the claims
C1-C10 about it.

Modelling conventions:
* JavaScript numbers are modelled as exact real numbers wrapped in
  `Option ℝ` (`JVal`): `some x` is a finite value, `none` stands for a
  non-finite result (`NaN` or an infinity).  Every arithmetic operation on
  finite operands that yields a finite value is modelled exactly; any
  operation that involves or produces a non-finite value yields `none`
  (division by zero, square root of a negative number, and propagation).
  Rounding and overflow of IEEE doubles are not modelled; no claim checked
  here depends on them.  Where no non-finite value can arise (visit
  counters, reply parsing with clamping) plain `Nat`/`ℚ` are used so that
  concrete runs can be decided.
* `DialogueState.hash()` JSON-stringifies the triple
  (conversationHistory, currentQuery, depth); the model uses that triple
  itself as the key, which identifies exactly the same pairs of states.
* The `metrics` field of `DialogueState` is written by `evaluate` but never
  read anywhere in the engine, so it is omitted from the state record.
-/

set_option maxRecDepth 8000

namespace MctsModel

/-! ## JavaScript number model -/

/-- Finite-or-not model of a JavaScript number: `some x` is the finite real
value `x`, `none` is a non-finite value (`NaN` or an infinity). -/
abbrev JVal := Option ℝ

/-- Addition on `JVal`; a non-finite operand makes the result non-finite,
matching IEEE addition for every case reachable in the engine. -/
def jadd : JVal → JVal → JVal
  | some a, some b => some (a + b)
  | _, _ => none

/-- Subtraction on `JVal`. -/
def jsub : JVal → JVal → JVal
  | some a, some b => some (a - b)
  | _, _ => none

/-- Multiplication on `JVal`. -/
def jmul : JVal → JVal → JVal
  | some a, some b => some (a * b)
  | _, _ => none

/-- Division on `JVal`: division by zero is non-finite (`0/0` is `NaN`,
`x/0` is an infinity), as in JavaScript. -/
noncomputable def jdiv : JVal → JVal → JVal
  | some a, some b => if b = 0 then none else some (a / b)
  | _, _ => none

/-- `Math.sqrt`: `NaN` on negative input. -/
noncomputable def jsqrt : JVal → JVal
  | some a => if a < 0 then none else some (Real.sqrt a)
  | none => none

/-- The JavaScript `>` comparison: false whenever an operand is `NaN`.
(The only non-finite value reachable in the engine's scores is `NaN`.) -/
noncomputable def jgt : JVal → JVal → Bool
  | some a, some b => decide (b < a)
  | _, _ => false

/-! ## `MCTSNode.getPUCTScore` -/

/-- Model of `MCTSNode.getPUCTScore` (cot-reflection.ts lines 527-543).
The exploration constant is the hard-coded local `const C = 1.5` of the
source; the method never reads the configured `explorationConstant`.
`totalValue`/`raveValue` are `JVal` because backpropagated values flow into
them unchecked. -/
noncomputable def getPUCTScore (visits raveVisits : Nat) (totalValue raveValue : JVal)
    (totalParentVisits priorProbability : ℝ) : JVal :=
  let C : ℝ := 3 / 2
  let exploitation : JVal :=
    if visits = 0 then some 0 else jdiv totalValue (some (visits : ℝ))
  let exploration : JVal :=
    jdiv (jmul (some (C * priorProbability)) (jsqrt (some totalParentVisits)))
      (some (1 + (visits : ℝ)))
  let beta : JVal :=
    jdiv (some (visits : ℝ))
      (some ((visits : ℝ) + (raveVisits : ℝ) + 4 * priorProbability * totalParentVisits))
  let raveComponent : JVal :=
    if raveVisits = 0 then some 0 else jdiv raveValue (some (raveVisits : ℝ))
  jadd (jadd (jmul beta exploitation) (jmul (jsub (some 1) beta) raveComponent)) exploration

/-- Modelled from the spec's selection formula (spec §4.2 step 1), which
takes the exploration constant `c` from the configuration.  Used only to
compare the spec's formula against the source's `getPUCTScore`. -/
noncomputable def specPUCTScore (c : ℝ) (visits raveVisits : Nat) (totalValue raveValue : JVal)
    (totalParentVisits priorProbability : ℝ) : JVal :=
  let exploitation : JVal :=
    if visits = 0 then some 0 else jdiv totalValue (some (visits : ℝ))
  let exploration : JVal :=
    jdiv (jmul (some (c * priorProbability)) (jsqrt (some totalParentVisits)))
      (some (1 + (visits : ℝ)))
  let beta : JVal :=
    jdiv (some (visits : ℝ))
      (some ((visits : ℝ) + (raveVisits : ℝ) + 4 * priorProbability * totalParentVisits))
  let raveComponent : JVal :=
    if raveVisits = 0 then some 0 else jdiv raveValue (some (raveVisits : ℝ))
  jadd (jadd (jmul beta exploitation) (jmul (jsub (some 1) beta) raveComponent)) exploration

/-! ## Dialogue state -/

/-- Role of a conversation turn (`CoreMessage.role` as used by the engine). -/
inductive Role where
  | user
  | assistant
deriving DecidableEq

/-- One conversation turn (a `CoreMessage`). -/
structure Turn where
  role : Role
  content : String
deriving DecidableEq

/-- Model of the immutable `DialogueState` (cot-reflection.ts lines 404-467).
The write-only `metrics` field is omitted (never read by the engine). -/
structure DialogueState where
  systemPrompt : String
  conversationHistory : List Turn
  currentQuery : String
  depth : Nat
deriving DecidableEq

/-- Key produced by `DialogueState.hash()`: the source JSON-stringifies
exactly `{history, query, depth}`; the triple itself serves as the key. -/
abbrev StateKey := List Turn × String × Nat

/-- Model of `DialogueState.hash()`. -/
def DialogueState.hashKey (s : DialogueState) : StateKey :=
  (s.conversationHistory, s.currentQuery, s.depth)

/-- Model of `DialogueState.withNewMessage`: append one turn, increment
depth, keep system prompt and query. -/
def DialogueState.withNewMessage (s : DialogueState) (role : Role) (content : String) :
    DialogueState :=
  { s with
    conversationHistory := s.conversationHistory ++ [⟨role, content⟩]
    depth := s.depth + 1 }

/-- Model of `DialogueState.getLastResponse`: the content of the last turn
when it is an assistant turn, otherwise `none`. -/
def DialogueState.getLastResponse (s : DialogueState) : Option String :=
  match s.conversationHistory.getLast? with
  | some t => if t.role = Role.assistant then some t.content else none
  | none => none

/-! ## Strings: `toLowerCase` and `includes` -/

/-- `String.prototype.toLowerCase` (ASCII range, which is all the engine's
fixed phrases use). -/
def jsToLower (s : String) : String :=
  String.mk (s.data.map Char.toLower)

/-- Splitting loop for `jsSplit`. -/
def jsSplitGo (sep : Char) : List Char → List Char → List String
  | [], acc => [String.mk acc.reverse]
  | c :: rest, acc =>
    if c = sep then String.mk acc.reverse :: jsSplitGo sep rest []
    else jsSplitGo sep rest (c :: acc)

/-- `String.prototype.split` with a one-character separator (the engine
splits only on `","` and `"\n"`): every maximal separator-free segment, in
order, including empty segments. -/
def jsSplit (sep : Char) (s : String) : List String :=
  jsSplitGo sep s.data []

/-- `String.prototype.trim`: strip whitespace from both ends. -/
def jsTrim (s : String) : String :=
  String.mk (((s.data.dropWhile Char.isWhitespace).reverse.dropWhile Char.isWhitespace).reverse)

/-- `String.prototype.includes`: some suffix of `s` starts with `pat`. -/
def jsIncludes (s pat : String) : Bool :=
  s.toList.tails.any (fun t => List.isPrefixOf pat.toList t)

/-! ## Configuration and the terminal predicate -/

/-- The options record handed to the `MCTS` constructor (cot-reflection.ts
lines 552-558 and the defaults at 863-869).  `explorationConstant` and
`temperature` are carried exactly as in the source; the engine never reads
`explorationConstant` (see `getPUCTScore`). -/
structure MCTSOptions where
  maxDepth : Nat
  maxChildren : Nat
  explorationConstant : ℝ
  temperature : ℝ
  useRAVE : Bool

/-- Model of `MCTS.isTerminal` (cot-reflection.ts lines 795-801). -/
def isTerminal (opts : MCTSOptions) (s : DialogueState) : Bool :=
  decide (opts.maxDepth ≤ s.depth)
    || jsIncludes (jsToLower s.currentQuery) "goodbye"
    || jsIncludes (jsToLower s.currentQuery) "thank you"

/-! ## `Number.parseFloat` and reply parsing -/

/-- Value of a digit string. -/
def digitsVal (ds : List Char) : Nat :=
  ds.foldl (fun a c => a * 10 + (c.toNat - 48)) 0

/-- Model of `Number.parseFloat` on a trimmed string: parses the longest
prefix of the form `[+-]? digits [. digits]` or `[+-]? . digits` and
returns `none` (`NaN`) when no digit is found.  Exponent forms and the
`Infinity` literal are outside what any property checked here feeds it. -/
def jsParseFloat (s : String) : Option ℚ :=
  let cs := s.toList
  let signAndRest : ℚ × List Char :=
    match cs with
    | '-' :: rest => (-1, rest)
    | '+' :: rest => (1, rest)
    | _ => (1, cs)
  let sign := signAndRest.1
  let body := signAndRest.2
  let intPart := body.takeWhile Char.isDigit
  let afterInt := body.drop intPart.length
  let fracPart :=
    match afterInt with
    | '.' :: r => r.takeWhile Char.isDigit
    | _ => []
  if intPart.isEmpty ∧ fracPart.isEmpty then none
  else some (sign * ((digitsVal intPart : ℚ) + (digitsVal fracPart : ℚ) / (10 : ℚ) ^ fracPart.length))

/-- `Math.max(0, Math.min(x, 1))` on a parse result: clamps a finite value
into `[0,1]` and propagates `NaN` (both `min` and `max` return `NaN` on a
`NaN` operand). -/
def clamp01 (x : Option ℚ) : Option ℚ :=
  x.map (fun v => max 0 (min v 1))

/-- Rational-valued addition with `NaN`/`undefined` propagation, for the
metric combination in `evaluate`. -/
def qadd : Option ℚ → Option ℚ → Option ℚ
  | some a, some b => some (a + b)
  | _, _ => none

/-- Rational-valued multiplication with `NaN`/`undefined` propagation. -/
def qmul : Option ℚ → Option ℚ → Option ℚ
  | some a, some b => some (a * b)
  | _, _ => none

/-- Model of the value computed by `MCTS.evaluate` (cot-reflection.ts lines
755-793) as a function of the oracle's reply: `Except.error` is a throwing
`generateText` call (transport failure), caught and turned into `0.5`;
`Except.ok text` is a successful reply, split on commas, each piece parsed
with `parseFloat` and clamped, and the first three results combined as
`coherence*0.3 + relevance*0.4 + engagement*0.3`.  A missing or unparseable
piece is `undefined`/`NaN`, which the multiplication and addition turn into
`NaN` (`none`); nothing on this path throws, so the catch never fires. -/
def evaluateScore (reply : Except Unit String) : Option ℚ :=
  match reply with
  | Except.error _ => some (1 / 2)
  | Except.ok text =>
    let nums := (jsSplit ',' text).map (fun n => clamp01 (jsParseFloat (jsTrim n)))
    let coherence := (nums.get? 0).join
    let relevance := (nums.get? 1).join
    let engagement := (nums.get? 2).join
    qadd (qadd (qmul coherence (some (3 / 10))) (qmul relevance (some (2 / 5))))
      (qmul engagement (some (3 / 10)))

/-- Model of `MCTS.calculateActionPriors` (cot-reflection.ts lines 803-839)
as a function of the oracle's reply: on a throwing `generateText` call the
catch returns the uniform distribution; on a successful reply the text is
split into lines, each line parsed with `parseFloat`, the `NaN` results
filtered out, and a softmax applied to whatever scores remain — the number
of scores is not reconciled with the number of candidate actions. -/
noncomputable def calculateActionPriors (reply : Except Unit String) (actions : List String) :
    List ℝ :=
  match reply with
  | Except.error _ => List.replicate actions.length (1 / (actions.length : ℝ))
  | Except.ok text =>
    let scores := (jsSplit '\n' text).filterMap (fun line => jsParseFloat (jsTrim line))
    let expScores := scores.map (fun q => Real.exp (q : ℝ))
    let sum := expScores.sum
    expScores.map (fun e => e / sum)

/-! ## The search tree -/

/-- Model of an `MCTSNode` (cot-reflection.ts lines 469-544): nodes live in
an arena (a list), `parent` and `children` are indices into it. -/
structure MCTSNode where
  state : DialogueState
  parent : Option Nat
  action : Option String
  children : List Nat
  visits : Nat
  totalValue : ℝ
  raveVisits : Nat
  raveValue : ℝ
  isFullyExpanded : Bool

/-- A fresh node, as built by the `MCTSNode` constructor with its default
arguments. -/
def MCTSNode.fresh (state : DialogueState) (parent : Option Nat) (action : Option String) :
    MCTSNode :=
  { state := state, parent := parent, action := action, children := [],
    visits := 0, totalValue := 0, raveVisits := 0, raveValue := 0,
    isFullyExpanded := false }

/-- The node arena. -/
structure SearchTree where
  nodes : List MCTSNode

/-- Replace the element at an index by the image under `f` (no-op when the
index is out of range). -/
def listModify {α : Type} : List α → Nat → (α → α) → List α
  | [], _, _ => []
  | a :: l, 0, f => f a :: l
  | a :: l, n + 1, f => a :: listModify l n f

/-- Apply `f` to the node at index `i`. -/
def SearchTree.modifyNode (t : SearchTree) (i : Nat) (f : MCTSNode → MCTSNode) : SearchTree :=
  ⟨listModify t.nodes i f⟩

/-- The engine's shared mutable state: the node arena, the transposition
table (`Map<string, MCTSNode>`) and the action-prior table
(`Map<string, number>`, whose stored values can be `undefined` when
`priors[i]` is out of range). -/
structure EngineState where
  tree : SearchTree
  table : List (StateKey × Nat)
  actionPriors : List (String × Option ℝ)

/-- The engine state right after `findBestResponse` creates the root node
and registers it in the transposition table. -/
def initialEngine (s : DialogueState) : EngineState :=
  { tree := ⟨[MCTSNode.fresh s none none]⟩
    table := [(s.hashKey, 0)]
    actionPriors := [] }

/-! ## Selection -/

/-- The prior read in `select`:
`this.actionPriors.get(child.action || "") || 1.0 / current.children.length`.
A missing key, a stored `undefined`, and a stored `0` (falsy) all fall back
to the uniform prior. -/
noncomputable def priorOf (priors : List (String × Option ℝ)) (action : Option String)
    (childCount : Nat) : ℝ :=
  match List.lookup (action.getD "") priors with
  | some (some p) => if p = 0 then 1 / (childCount : ℝ) else p
  | some none => 1 / (childCount : ℝ)
  | none => 1 / (childCount : ℝ)

/-- The `reduce` in `select` choosing the PUCT-maximal child: start from the
first child, replace the best only on a strictly greater score (`NaN`
scores never win a comparison). -/
noncomputable def pickBestChild (t : SearchTree) (priors : List (String × Option ℝ))
    (parent : MCTSNode) : Nat :=
  let score : Nat → JVal := fun i =>
    match t.nodes.get? i with
    | some n =>
      getPUCTScore n.visits n.raveVisits (some n.totalValue) (some n.raveValue)
        (parent.visits : ℝ) (priorOf priors n.action parent.children.length)
    | none => none
  match parent.children with
  | [] => 0
  | c :: rest => rest.foldl (fun best child => if jgt (score child) (score best) then child else best) c

/-- Model of `MCTS.select` (cot-reflection.ts lines 612-650), fuel-indexed:
`none` models an execution of the source loop that has not returned within
`fuel` iterations (the loop can in fact run forever, see `c7` below).
One iteration: if the current node is non-terminal and fully expanded, push
it on the path; stop (pushing it a second time, as the source's final
`path.push` does after `break`) when it has no children; otherwise, if its
hash is already in the in-progress set, `continue` — re-entering the loop
with the same current node; otherwise add the hash to the set and descend
to the PUCT-best child.  On loop exit the current node is pushed and the
path returned. -/
noncomputable def selectGo (opts : MCTSOptions) (t : SearchTree)
    (priors : List (String × Option ℝ)) :
    Nat → Nat → List Nat → List StateKey → Option (List Nat × List StateKey)
  | 0, _, _, _ => none
  | fuel + 1, cur, path, inProgress =>
    match t.nodes.get? cur with
    | none => none
    | some node =>
      if isTerminal opts node.state = false ∧ node.isFullyExpanded = true then
        let path' := path ++ [cur]
        if node.children = [] then some (path' ++ [cur], inProgress)
        else
          let key := node.state.hashKey
          if key ∈ inProgress then selectGo opts t priors fuel cur path' inProgress
          else
            let inProgress' := inProgress ++ [key]
            let best := pickBestChild t priors node
            selectGo opts t priors fuel best path' inProgress'
      else some (path ++ [cur], inProgress)

/-! ## Expansion -/

/-- Store a prior under an action key (`Map.set`: later entries shadow
earlier ones under `List.lookup`). -/
def setPrior (priors : List (String × Option ℝ)) (action : String) (p : Option ℝ) :
    List (String × Option ℝ) :=
  (action, p) :: priors

/-- One iteration of the `for` loop in `MCTS.expand` (cot-reflection.ts
lines 664-679): build the child state, look it up in the transposition
table (creating and registering a fresh node on a miss), push its index
onto the expanding node's child list — the push happens even when the node
is already among the children — and record the action's prior. -/
def expandChild (idx : Nat) (baseState : DialogueState) (priorsList : List ℝ)
    (es : EngineState) (ia : Nat × String) : EngineState :=
  let newState := baseState.withNewMessage Role.assistant ia.2
  let key := newState.hashKey
  let found := List.lookup key es.table
  let childIdx := found.getD es.tree.nodes.length
  let es' :=
    match found with
    | some _ => es
    | none =>
      { es with
        tree := ⟨es.tree.nodes ++ [MCTSNode.fresh newState (some idx) (some ia.2)]⟩
        table := (key, es.tree.nodes.length) :: es.table }
  { es' with
    tree := es'.tree.modifyNode idx (fun n => { n with children := n.children ++ [childIdx] })
    actionPriors := setPrior es'.actionPriors ia.2 (priorsList.get? ia.1) }

/-- Model of `MCTS.expand` (cot-reflection.ts lines 652-683), parameterized
by the oracle's answers: returns the updated engine state and the index of
the node the source returns (the node itself when it is terminal or the
oracle proposes nothing, otherwise `node.children[0]`).  Note the source
never checks `isFullyExpanded` here: calling it on an already expanded node
runs the whole loop again. -/
def expand (actionsOf : DialogueState → List String)
    (priorsOf : DialogueState → List String → List ℝ)
    (opts : MCTSOptions) (es : EngineState) (idx : Nat) : EngineState × Nat :=
  match es.tree.nodes.get? idx with
  | none => (es, idx)
  | some node =>
    if isTerminal opts node.state then (es, idx)
    else
      let actions := actionsOf node.state
      if actions = [] then
        (es.tree.modifyNode idx (fun n => { n with isFullyExpanded := true }) |>
          fun t => { es with tree := t }, idx)
      else
        let priorsList := priorsOf node.state actions
        let es' := actions.enum.foldl (expandChild idx node.state priorsList) es
        let es'' := { es' with
          tree := es'.tree.modifyNode idx (fun n => { n with isFullyExpanded := true }) }
        let firstChild :=
          (((es''.tree.nodes.get? idx).map (fun n => n.children)).getD []).headD idx
        (es'', firstChild)

/-! ## Rollout -/

/-- The loop of `MCTS.simulate` (cot-reflection.ts lines 690-707);
`remaining` keeps `depth < this.simulationDepth` as fuel, `rand` is the
stream of `Math.floor(Math.random() * n)` draws (spec §9 asks for an
injected randomness source; the draw at step `d` is `rand d % n`).
Returns the accumulated discounted value and the number of steps run. -/
noncomputable def simulateGo (actionsOf : DialogueState → List String)
    (evaluateOf : DialogueState → ℝ) (opts : MCTSOptions) (rand : Nat → Nat) :
    Nat → DialogueState → ℝ → Nat → ℝ × Nat
  | 0, _, value, depth => (value, depth)
  | remaining + 1, st, value, depth =>
    if isTerminal opts st then (value, depth)
    else
      let actions := actionsOf st
      if actions = [] then (value, depth)
      else
        let numActions := max 1 (Nat.sqrt (depth + 1))
        let selected := actions.take numActions
        let a := (selected.get? (rand depth % selected.length)).getD ""
        let st' := st.withNewMessage Role.assistant a
        let v := evaluateOf st'
        simulateGo actionsOf evaluateOf opts rand remaining st' (value + v * (19 / 20 : ℝ) ^ depth)
          (depth + 1)

/-- Model of `MCTS.simulate` (cot-reflection.ts lines 685-711): run the
rollout loop and normalize by `depth || 1`. -/
noncomputable def simulate (actionsOf : DialogueState → List String)
    (evaluateOf : DialogueState → ℝ) (opts : MCTSOptions) (rand : Nat → Nat)
    (simulationDepth : Nat) (st : DialogueState) : ℝ :=
  let r := simulateGo actionsOf evaluateOf opts rand simulationDepth st 0 0
  r.1 / (if r.2 = 0 then 1 else (r.2 : ℝ))

/-! ## Backpropagation -/

/-- Model of `MCTS.backpropagate` (cot-reflection.ts lines 713-722): walk
the path in reverse; each occurrence of a node gets `addVisit(value)` and,
when RAVE is enabled, `addRaveData(value)`. -/
def backpropagate (opts : MCTSOptions) (t : SearchTree) (path : List Nat) (value : ℝ) :
    SearchTree :=
  path.reverse.foldl
    (fun t i =>
      t.modifyNode i (fun n =>
        let n' := { n with visits := n.visits + 1, totalValue := n.totalValue + value }
        if opts.useRAVE then
          { n' with raveVisits := n'.raveVisits + 1, raveValue := n'.raveValue + value }
        else n'))
    t

/-! ## The full search -/

/-- The oracle stub: the engine's three suspension points (spec §4.1) plus
the injected randomness for rollout sampling.  `generateActions` answers
`MCTS.generateActions` (already cut to `maxChildren` completions, or `[]`
on failure), `scorePriors` answers `MCTS.calculateActionPriors`,
`evaluate` answers `MCTS.evaluate`, and `rand i d` is the `Math.random`
draw of simulation `i` at rollout step `d`. -/
structure Oracle where
  generateActions : DialogueState → List String
  scorePriors : DialogueState → List String → List ℝ
  evaluate : DialogueState → ℝ
  rand : Nat → Nat → Nat

/-- Phase A of `findBestResponse` (see `runSearch`): the `n` simulation
closures run `select` one after another, threading the shared in-progress
set, all against the engine state as it stands before any expansion. -/
noncomputable def phaseASelect (opts : MCTSOptions) (t : SearchTree)
    (priors : List (String × Option ℝ)) (fuel : Nat) :
    Nat → List StateKey → Option (List (List Nat) × List StateKey)
  | 0, ip => some ([], ip)
  | n + 1, ip =>
    match selectGo opts t priors fuel 0 [] ip with
    | none => none
    | some (path, ip') =>
      match phaseASelect opts t priors fuel n ip' with
      | none => none
      | some (paths, ip'') => some (path :: paths, ip'')

/-- Phase B of `findBestResponse` for one simulation: the leaf is the last
node of the recorded path; a terminal leaf does nothing (no expansion,
rollout or backpropagation), a non-terminal leaf is expanded, rolled out
from the node `expand` returned, and the rollout value is backpropagated
along the recorded path. -/
noncomputable def phaseBStep (o : Oracle) (opts : MCTSOptions) (simulationDepth : Nat)
    (i : Nat) (es : EngineState) (path : List Nat) : EngineState :=
  let leafIdx := path.getLast?.getD 0
  match es.tree.nodes.get? leafIdx with
  | none => es
  | some leaf =>
    if isTerminal opts leaf.state then es
    else
      let r := expand o.generateActions o.scorePriors opts es leafIdx
      let simState := ((r.1.tree.nodes.get? r.2).map (fun n => n.state)).getD leaf.state
      let value := simulate o.generateActions o.evaluate opts (o.rand i) simulationDepth simState
      { r.1 with tree := backpropagate opts r.1.tree path value }

/-- Run phase B for every recorded path, in simulation order. -/
noncomputable def phaseBRun (o : Oracle) (opts : MCTSOptions) (simulationDepth : Nat) :
    List (List Nat) → Nat → EngineState → EngineState
  | [], _, es => es
  | path :: rest, i, es =>
    phaseBRun o opts simulationDepth rest (i + 1) (phaseBStep o opts simulationDepth i es path)

/-- The answer extraction at the end of `findBestResponse` (cot-reflection.ts
lines 602-609): `""` when the root has no children, otherwise the action of
the most-visited child, ties keeping the earliest-created child (`reduce`
with a strict `>`); a `null` action also becomes `""` (`bestChild.action
|| ""`). -/
def bestAction (es : EngineState) : String :=
  let rootChildren := ((es.tree.nodes.get? 0).map (fun n => n.children)).getD []
  match rootChildren with
  | [] => ""
  | c :: rest =>
    let visitsOf : Nat → Nat := fun i =>
      ((es.tree.nodes.get? i).map (fun n => n.visits)).getD 0
    let bestIdx := rest.foldl (fun best child =>
      if visitsOf best < visitsOf child then child else best) c
    ((es.tree.nodes.get? bestIdx).bind (fun n => n.action)).getD ""

/-- Model of `MCTS.findBestResponse` (cot-reflection.ts lines 581-610) under
the source's actual single-threaded event-loop execution.

`findBestResponse` launches `numSimulations` async closures with
`Array(...).fill(null).map(async () => ...)`.  Each closure begins with
`await this.select(root, inProgress)`, and `select` contains no `await`,
so each closure runs the whole of `select` synchronously while the `.map`
is still executing — before any oracle promise can resolve.  Hence all
`numSimulations` selections run, in launch order, against the tree as it
stands before any expansion (phase A).  Each closure then resumes at its
oracle `await`s with the recorded path fixed.  The writes the resumptions
perform on the shared state — the child-list pushes, transposition-table
inserts, prior writes and the `isFullyExpanded` flag of `expand`, and the
per-node visit/value increments of `backpropagate` — yield the same final
engine state under every resolution order of the oracle promises: every
resumption operates on the same leaf (the last node of its recorded path),
its `expand` writes form one synchronous block (the `for` loop contains no
`await`) performing the same pushes and idempotent inserts as the others',
the rollout of a simulation reads only the immutable states it builds
itself, and the backpropagation increments commute.  Phase B therefore
models the resumptions sequentially, in simulation order.

`fuel` bounds the iterations of the `select` loop; a `none` result means
some simulation's `select` never returned (the source loop can run
forever; see `c7`).  After all simulations finish: an empty child list at
the root yields `""`, otherwise the action of the most-visited child,
ties keeping the earliest-created child (`reduce` with a strict `>`). -/
noncomputable def runSearch (o : Oracle) (opts : MCTSOptions)
    (simulationDepth numSimulations fuel : Nat) (initialState : DialogueState) :
    Option (String × EngineState) :=
  let es0 := initialEngine initialState
  match phaseASelect opts es0.tree es0.actionPriors fuel numSimulations [] with
  | none => none
  | some (paths, _) =>
    let esFinal := phaseBRun o opts simulationDepth paths 0 es0
    some (bestAction esFinal, esFinal)

/-! ## Observations on an engine state -/

/-- Visit count of the node at index `i` (0 when absent). -/
def nodeVisits (es : EngineState) (i : Nat) : Nat :=
  ((es.tree.nodes.get? i).map (fun n => n.visits)).getD 0

/-- Visit count of the root node. -/
def rootVisitCount (es : EngineState) : Nat :=
  nodeVisits es 0

/-- Child list of the root node. -/
def rootChildList (es : EngineState) : List Nat :=
  ((es.tree.nodes.get? 0).map (fun n => n.children)).getD []

/-- Edge action of the node at index `i`. -/
def nodeAction (es : EngineState) (i : Nat) : Option String :=
  (es.tree.nodes.get? i).bind (fun n => n.action)

/-! ## Concrete instances used by the claims -/

/-- The initial state of the spec's concrete scenario: empty system prompt
and history, a query containing no closing phrase, depth 0 (as built by
`DialogueState.create(system, [], prompt)` in `mcts`). -/
def scenarioState : DialogueState :=
  { systemPrompt := "", conversationHistory := [], currentQuery := "hello world", depth := 0 }

/-- The configuration of the spec's concrete scenario:
`maxDepth = 1`, `maxChildren = 2`, remaining options at their `mcts`
defaults (`explorationConstant 1.5`, `temperature 0.8`, `useRAVE true`). -/
noncomputable def scenarioOpts : MCTSOptions :=
  { maxDepth := 1, maxChildren := 2, explorationConstant := 3 / 2,
    temperature := 4 / 5, useRAVE := true }

/-- The stub oracle of the spec's concrete scenario: it proposes actions
`["A", "B"]` with priors `[0.5, 0.5]`, and evaluates a state to `1.0`
when its latest turn is `"A"` and to `0.0` otherwise (in particular when
it is `"B"`). -/
noncomputable def scenarioOracle : Oracle :=
  { generateActions := fun _ => ["A", "B"]
    scorePriors := fun _ _ => [1 / 2, 1 / 2]
    evaluate := fun st => if st.getLastResponse = some "A" then 1 else 0
    rand := fun _ _ => 0 }

/-- A terminal initial state: its query contains "goodbye", so it is
terminal at depth 0 under every configuration. -/
def goodbyeState : DialogueState :=
  { systemPrompt := "", conversationHistory := [], currentQuery := "ok goodbye", depth := 0 }

/-- An oracle that always proposes nothing and always evaluates to 0. -/
def emptyOracle : Oracle :=
  { generateActions := fun _ => []
    scorePriors := fun _ _ => []
    evaluate := fun _ => 0
    rand := fun _ _ => 0 }

/-- A fully-expanded non-terminal node with one child, in the shape `expand`
leaves a node after a successful expansion. -/
def loopRoot : MCTSNode :=
  { MCTSNode.fresh scenarioState none none with children := [1], isFullyExpanded := true }

/-- The single child of `loopRoot`. -/
def loopChild : MCTSNode :=
  MCTSNode.fresh (scenarioState.withNewMessage Role.assistant "A") (some 0) (some "A")

/-- A two-node tree whose root is fully expanded and non-terminal. -/
def loopTree : SearchTree :=
  ⟨[loopRoot, loopChild]⟩

/-! ## Basic lemmas about the number model -/

theorem jmul_none_left (x : JVal) : jmul none x = none := by
  cases x <;> rfl

theorem jadd_none_left (x : JVal) : jadd none x = none := by
  cases x <;> rfl

theorem jsub_none_right (x : JVal) : jsub x none = none := by
  cases x <;> rfl

theorem jdiv_some_some (a b : ℝ) : jdiv (some a) (some b) = if b = 0 then none else some (a / b) :=
  rfl

theorem jmul_some_some (a b : ℝ) : jmul (some a) (some b) = some (a * b) :=
  rfl

theorem jadd_some_some (a b : ℝ) : jadd (some a) (some b) = some (a + b) :=
  rfl

theorem jsub_some_some (a b : ℝ) : jsub (some a) (some b) = some (a - b) :=
  rfl

theorem jsqrt_some (a : ℝ) : jsqrt (some a) = if a < 0 then none else some (Real.sqrt a) :=
  rfl

/-! ## `jsIncludes` agrees with substring occurrence -/

theorem jsIncludes_iff (s pat : String) :
    jsIncludes s pat = true ↔ ∃ pre post, s.toList = pre ++ pat.toList ++ post := by
  unfold jsIncludes
  rw [List.any_eq_true]
  constructor
  · rintro ⟨t, ht, hp⟩
    rw [List.mem_tails] at ht
    rw [ List.isPrefixOf_iff_prefix] at hp
    obtain ⟨pre, post, h⟩ := List.infix_iff_prefix_suffix.mpr ⟨t, hp, ht⟩
    exact ⟨pre, post, h.symm⟩
  · rintro ⟨pre, post, h⟩
    obtain ⟨t, hp, ht⟩ := List.infix_iff_prefix_suffix.mp ⟨pre, post, h.symm⟩
    exact ⟨t, (List.mem_tails _ _).mpr ht, ( List.isPrefixOf_iff_prefix).mpr hp⟩

/-! ## Phase A lemmas: selection against an unexpanded or terminal root -/

theorem selectGo_stop (opts : MCTSOptions) (t : SearchTree)
    (priors : List (String × Option ℝ)) (fuel : Nat) (ip : List StateKey) (n : MCTSNode)
    (hget : t.nodes.get? 0 = some n)
    (hstop : isTerminal opts n.state = true ∨ n.isFullyExpanded = false) :
    selectGo opts t priors (fuel + 1) 0 [] ip = some ([0], ip) := by
  have hc : ¬(isTerminal opts n.state = false ∧ n.isFullyExpanded = true) := by
    rcases hstop with ht | hf
    · rintro ⟨h1, _⟩
      rw [ht] at h1
      exact Bool.noConfusion h1
    · rintro ⟨_, h2⟩
      rw [hf] at h2
      exact Bool.noConfusion h2
  simp only [selectGo, hget, if_neg hc, List.nil_append]

theorem phaseASelect_unexpanded (opts : MCTSOptions) (t : SearchTree)
    (priors : List (String × Option ℝ)) (fuel : Nat) (n : MCTSNode)
    (hget : t.nodes.get? 0 = some n)
    (hstop : isTerminal opts n.state = true ∨ n.isFullyExpanded = false) :
    ∀ (numSims : Nat) (ip : List StateKey),
      phaseASelect opts t priors (fuel + 1) numSims ip =
        some (List.replicate numSims [0], ip) := by
  intro numSims
  induction numSims with
  | zero => intro ip; rfl
  | succ k ih =>
    intro ip
    simp only [phaseASelect, selectGo_stop opts t priors fuel ip n hget hstop, ih ip,
      List.replicate_succ]

theorem runSearch_eq_of_phaseA (o : Oracle) (opts : MCTSOptions)
    (simulationDepth numSimulations fuel : Nat) (s : DialogueState)
    (paths : List (List Nat)) (ip : List StateKey)
    (h : phaseASelect opts (initialEngine s).tree (initialEngine s).actionPriors fuel
      numSimulations [] = some (paths, ip)) :
    runSearch o opts simulationDepth numSimulations fuel s =
      some (bestAction (phaseBRun o opts simulationDepth paths 0 (initialEngine s)),
        phaseBRun o opts simulationDepth paths 0 (initialEngine s)) := by
  simp only [runSearch]
  rw [h]

/-! ## Phase B lemmas: what one simulation resumption does to the root node -/

theorem expandChild_preserves_head (baseState : DialogueState) (priorsList : List ℝ)
    (es : EngineState) (ia : Nat × String) (node : MCTSNode) (rest : List MCTSNode)
    (h : es.tree.nodes = node :: rest) :
    ∃ node' rest', (expandChild 0 baseState priorsList es ia).tree.nodes = node' :: rest' ∧
      node'.state = node.state ∧ node'.visits = node.visits := by
  cases hl : List.lookup (baseState.withNewMessage Role.assistant ia.2).hashKey es.table with
  | some j =>
    refine ⟨{ node with children := node.children ++ [j] }, rest, ?_, rfl, rfl⟩
    simp [expandChild, hl, SearchTree.modifyNode, h, listModify]
  | none =>
    refine ⟨{ node with children := node.children ++ [es.tree.nodes.length] },
      rest ++ [MCTSNode.fresh (baseState.withNewMessage Role.assistant ia.2) (some 0)
        (some ia.2)], ?_, rfl, rfl⟩
    simp [expandChild, hl, SearchTree.modifyNode, h, listModify]

theorem expandFold_preserves_head (baseState : DialogueState) (priorsList : List ℝ) :
    ∀ (l : List (Nat × String)) (es : EngineState) (node : MCTSNode) (rest : List MCTSNode),
      es.tree.nodes = node :: rest →
      ∃ node' rest',
        (l.foldl (expandChild 0 baseState priorsList) es).tree.nodes = node' :: rest' ∧
          node'.state = node.state ∧ node'.visits = node.visits
  | [], _, node, rest, h => ⟨node, rest, h, rfl, rfl⟩
  | ia :: l, es, node, rest, h => by
    obtain ⟨n1, r1, h1, hs1, hv1⟩ := expandChild_preserves_head baseState priorsList es ia node rest h
    obtain ⟨n2, r2, h2, hs2, hv2⟩ := expandFold_preserves_head baseState priorsList l _ n1 r1 h1
    exact ⟨n2, r2, h2, hs2.trans hs1, hv2.trans hv1⟩

theorem expand_preserves_head (actionsOf : DialogueState → List String)
    (priorsOf : DialogueState → List String → List ℝ) (opts : MCTSOptions)
    (es : EngineState) (node : MCTSNode) (rest : List MCTSNode)
    (h : es.tree.nodes = node :: rest) :
    ∃ node' rest', (expand actionsOf priorsOf opts es 0).1.tree.nodes = node' :: rest' ∧
      node'.state = node.state ∧ node'.visits = node.visits := by
  have hget : es.tree.nodes.get? 0 = some node := by rw [h]; rfl
  simp only [expand, hget]
  by_cases hT : isTerminal opts node.state = true
  · exact ⟨node, rest, by simp [hT, h], rfl, rfl⟩
  · rw [Bool.not_eq_true] at hT
    by_cases hA : actionsOf node.state = []
    · refine ⟨{ node with isFullyExpanded := true }, rest, ?_, rfl, rfl⟩
      simp [hT, hA, SearchTree.modifyNode, h, listModify]
    · obtain ⟨n1, r1, h1, hs1, hv1⟩ := expandFold_preserves_head node.state
        (priorsOf node.state (actionsOf node.state)) (actionsOf node.state).enum es node rest h
      refine ⟨{ n1 with isFullyExpanded := true }, r1, ?_, hs1, hv1⟩
      simp [hT, hA, SearchTree.modifyNode, h1, listModify]

theorem backpropagate_zero_head (opts : MCTSOptions) (t : SearchTree) (node : MCTSNode)
    (rest : List MCTSNode) (v : ℝ) (h : t.nodes = node :: rest) :
    ∃ node', (backpropagate opts t [0] v).nodes = node' :: rest ∧
      node'.state = node.state ∧ node'.visits = node.visits + 1 := by
  cases hR : opts.useRAVE with
  | true =>
    refine ⟨{ node with
      visits := node.visits + 1
      totalValue := node.totalValue + v
      raveVisits := node.raveVisits + 1
      raveValue := node.raveValue + v }, ?_, rfl, rfl⟩
    simp [backpropagate, hR, SearchTree.modifyNode, h, listModify]
  | false =>
    refine ⟨{ node with
      visits := node.visits + 1
      totalValue := node.totalValue + v }, ?_, rfl, rfl⟩
    simp [backpropagate, hR, SearchTree.modifyNode, h, listModify]

theorem phaseBStep_head (o : Oracle) (opts : MCTSOptions) (simulationDepth i : Nat)
    (es : EngineState) (node : MCTSNode) (rest : List MCTSNode) (s : DialogueState)
    (h : es.tree.nodes = node :: rest) (hstate : node.state = s)
    (hterm : isTerminal opts s = false) :
    ∃ node' rest', (phaseBStep o opts simulationDepth i es [0]).tree.nodes = node' :: rest' ∧
      node'.state = s ∧ node'.visits = node.visits + 1 := by
  have hget : es.tree.nodes.get? ((([0] : List Nat).getLast?).getD 0) = some node := by
    rw [h]
    rfl
  have hT : isTerminal opts node.state = false := by rw [hstate]; exact hterm
  simp only [phaseBStep, hget, hT, Bool.false_eq_true, if_false]
  obtain ⟨n1, r1, h1, hs1, hv1⟩ :=
    expand_preserves_head o.generateActions o.scorePriors opts es node rest h
  obtain ⟨n2, h2, hs2, hv2⟩ := backpropagate_zero_head opts
    (expand o.generateActions o.scorePriors opts es
      ((([0] : List Nat).getLast?).getD 0)).1.tree n1 r1
    (simulate o.generateActions o.evaluate opts (o.rand i) simulationDepth
      ((((expand o.generateActions o.scorePriors opts es
        ((([0] : List Nat).getLast?).getD 0)).1.tree.nodes.get?
        (expand o.generateActions o.scorePriors opts es
          ((([0] : List Nat).getLast?).getD 0)).2).map (fun n => n.state)).getD node.state))
    h1
  exact ⟨n2, r1, h2, hs2.trans (hs1.trans hstate), by rw [hv2, hv1]⟩

theorem phaseBRun_replicate (o : Oracle) (opts : MCTSOptions) (simulationDepth : Nat)
    (s : DialogueState) (hterm : isTerminal opts s = false) :
    ∀ (k i : Nat) (es : EngineState) (node : MCTSNode) (rest : List MCTSNode),
      es.tree.nodes = node :: rest → node.state = s →
      ∃ node' rest',
        (phaseBRun o opts simulationDepth (List.replicate k [0]) i es).tree.nodes =
          node' :: rest' ∧ node'.state = s ∧ node'.visits = node.visits + k
  | 0, _, _, node, rest, h, hs => ⟨node, rest, h, hs, rfl⟩
  | k + 1, i, es, node, rest, h, hs => by
    obtain ⟨n1, r1, h1, hs1, hv1⟩ :=
      phaseBStep_head o opts simulationDepth i es node rest s h hs hterm
    obtain ⟨n2, r2, h2, hs2, hv2⟩ :=
      phaseBRun_replicate o opts simulationDepth s hterm k (i + 1) _ n1 r1 h1 hs1
    refine ⟨n2, r2, ?_, hs2, ?_⟩
    · rw [List.replicate_succ]
      exact h2
    · rw [hv2, hv1]
      omega

/-! ## Runs from a terminal initial state -/

theorem phaseBStep_terminal (o : Oracle) (opts : MCTSOptions) (simulationDepth i : Nat)
    (es : EngineState) (node : MCTSNode) (rest : List MCTSNode)
    (h : es.tree.nodes = node :: rest) (ht : isTerminal opts node.state = true) :
    phaseBStep o opts simulationDepth i es [0] = es := by
  have hget : es.tree.nodes.get? ((([0] : List Nat).getLast?).getD 0) = some node := by
    rw [h]
    rfl
  simp only [phaseBStep, hget, ht, if_true]

theorem phaseBRun_terminal (o : Oracle) (opts : MCTSOptions) (simulationDepth : Nat)
    (node : MCTSNode) (rest : List MCTSNode) (ht : isTerminal opts node.state = true) :
    ∀ (k i : Nat) (es : EngineState), es.tree.nodes = node :: rest →
      phaseBRun o opts simulationDepth (List.replicate k [0]) i es = es
  | 0, _, _, _ => rfl
  | k + 1, i, es, h => by
    rw [List.replicate_succ]
    have hstep := phaseBStep_terminal o opts simulationDepth i es node rest h ht
    calc phaseBRun o opts simulationDepth ([0] :: List.replicate k [0]) i es
        = phaseBRun o opts simulationDepth (List.replicate k [0]) (i + 1)
            (phaseBStep o opts simulationDepth i es [0]) := rfl
      _ = es := by
          rw [hstep]
          exact phaseBRun_terminal o opts simulationDepth node rest ht k (i + 1) es h

theorem runSearch_terminal (o : Oracle) (opts : MCTSOptions)
    (simulationDepth numSimulations fuel : Nat) (s : DialogueState)
    (hterm : isTerminal opts s = true) :
    runSearch o opts simulationDepth numSimulations (fuel + 1) s =
      some ("", initialEngine s) := by
  have hA := phaseASelect_unexpanded opts (initialEngine s).tree (initialEngine s).actionPriors
    fuel (MCTSNode.fresh s none none) rfl (Or.inl hterm) numSimulations []
  rw [runSearch_eq_of_phaseA o opts simulationDepth numSimulations (fuel + 1) s
    (List.replicate numSimulations [0]) [] hA]
  rw [phaseBRun_terminal o opts simulationDepth (MCTSNode.fresh s none none) [] hterm
    numSimulations 0 (initialEngine s) rfl]
  rfl

/-! ## The claims -/

/-- C1, counterexample: the claim "after a full search of `numSimulations`
simulation runs completes, the root node's visit count equals exactly
`numSimulations`, for every initial state and every configuration" fails on
a terminal initial state.  With the concrete scenario's configuration, a
query containing "goodbye" and `numSimulations = 1`, the root's final visit
count is 0, not 1: a simulation whose selected leaf is terminal skips
backpropagation entirely. -/
theorem c1_visit_conservation_counterexample :
    (runSearch scenarioOracle scenarioOpts 5 1 1 goodbyeState).map
      (fun p => rootVisitCount p.2) = some 0 ∧
    (runSearch scenarioOracle scenarioOpts 5 1 1 goodbyeState).map
      (fun p => rootVisitCount p.2) ≠ some 1 := by
  refine ⟨rfl, ?_⟩
  intro hcontra
  rw [show (runSearch scenarioOracle scenarioOpts 5 1 1 goodbyeState).map
      (fun p => rootVisitCount p.2) = some 0 from rfl] at hcontra
  simp at hcontra

/-- C1, amended: after a full search of `numSimulations` simulation runs on
a non-terminal initial state, the root node's visit count equals exactly
`numSimulations`, for every oracle and every configuration; on a terminal
initial state it remains 0 (see the counterexample). -/
theorem c1_visit_conservation_amended (o : Oracle) (opts : MCTSOptions)
    (simulationDepth numSimulations fuel : Nat) (s : DialogueState)
    (hterm : isTerminal opts s = false) :
    (runSearch o opts simulationDepth numSimulations (fuel + 1) s).map
      (fun p => rootVisitCount p.2) = some numSimulations := by
  have hA := phaseASelect_unexpanded opts (initialEngine s).tree (initialEngine s).actionPriors
    fuel (MCTSNode.fresh s none none) rfl (Or.inr rfl) numSimulations []
  rw [runSearch_eq_of_phaseA o opts simulationDepth numSimulations (fuel + 1) s
    (List.replicate numSimulations [0]) [] hA]
  obtain ⟨node', rest', h, _, hv⟩ := phaseBRun_replicate o opts simulationDepth s hterm
    numSimulations 0 (initialEngine s) (MCTSNode.fresh s none none) [] rfl rfl
  simp [rootVisitCount, nodeVisits, h, hv, MCTSNode.fresh]

/-- Witness for `c1_visit_conservation_amended` at the concrete scenario:
20 simulations from a non-terminal initial state leave the root with
exactly 20 visits. -/
theorem c1_visit_conservation_amended_witness :
    isTerminal scenarioOpts scenarioState = false ∧
    (runSearch scenarioOracle scenarioOpts 5 20 1 scenarioState).map
      (fun p => rootVisitCount p.2) = some 20 :=
  ⟨by decide,
   c1_visit_conservation_amended scenarioOracle scenarioOpts 5 20 0 scenarioState (by decide)⟩

/-- C2: evaluating the spec's concrete scenario (`maxDepth = 1`,
`maxChildren = 2`, `numSimulations = 20`, stub oracle proposing
`["A", "B"]` with priors `[0.5, 0.5]`, evaluate favouring `"A"`).  The
search does return `"A"`, but only because ties keep the first child: both
children end with 0 visits (every simulation's recorded path is `[root]`,
so only the root — 20 visits — is ever backpropagated), so the child for
`"A"` does not end with strictly more visits than the child for `"B"`. -/
theorem c2_concrete_scenario_code_behavior :
    (runSearch scenarioOracle scenarioOpts 5 20 1 scenarioState).map
      (fun p => (p.1, nodeVisits p.2 0, nodeVisits p.2 1, nodeVisits p.2 2,
        nodeAction p.2 1, nodeAction p.2 2)) =
    some ("A", 20, 0, 0, some "A", some "B") := by
  rfl

/-- C3: two simulations launched concurrently on the same unexpanded root
both expand it.  With the concrete scenario's stub oracle and
`numSimulations = 2`, the transposition table deduplicates the child node
objects (the arena holds 3 nodes), but the root's child list ends as
`[1, 2, 1, 2]`: each simulation pushed both children, so the list holds
duplicate entries — expansion is not exactly-once. -/
theorem c3_concurrent_double_expansion :
    (runSearch scenarioOracle scenarioOpts 5 2 1 scenarioState).map
      (fun p => (rootChildList p.2, p.2.tree.nodes.length)) = some ([1, 2, 1, 2], 3) ∧
    ¬ ([1, 2, 1, 2] : List Nat).Nodup :=
  ⟨rfl, by decide⟩

/-- C4: `getPUCTScore` uses the hard-coded exploration constant `1.5` and
ignores the configured `explorationConstant`.  At a child with one visit,
total value `0.5`, no RAVE data, prior `0.5` and one parent visit, the
source computes `13/24` — the spec's formula with `c = 1.5` — whereas the
spec's formula with a configured `c = 3` gives `11/12 ≠ 13/24`; so changing
the configured constant does not change the score the code computes. -/
theorem c4_exploration_constant_hardcoded :
    getPUCTScore 1 0 (some (1 / 2)) (some 0) 1 (1 / 2) = some (13 / 24) ∧
    specPUCTScore 3 1 0 (some (1 / 2)) (some 0) 1 (1 / 2) = some (11 / 12) ∧
    getPUCTScore 1 0 (some (1 / 2)) (some 0) 1 (1 / 2) =
      specPUCTScore (3 / 2) 1 0 (some (1 / 2)) (some 0) 1 (1 / 2) ∧
    getPUCTScore 1 0 (some (1 / 2)) (some 0) 1 (1 / 2) ≠
      specPUCTScore 3 1 0 (some (1 / 2)) (some 0) 1 (1 / 2) := by
  have h1 : getPUCTScore 1 0 (some (1 / 2)) (some 0) 1 (1 / 2) = some (13 / 24) := by
    norm_num [getPUCTScore, jdiv, jmul, jadd, jsub, jsqrt, Real.sqrt_one]
  have h2 : specPUCTScore 3 1 0 (some (1 / 2)) (some 0) 1 (1 / 2) = some (11 / 12) := by
    norm_num [specPUCTScore, jdiv, jmul, jadd, jsub, jsqrt, Real.sqrt_one]
  refine ⟨h1, h2, rfl, ?_⟩
  rw [h1, h2]
  intro hcontra
  rw [Option.some_inj] at hcontra
  norm_num at hcontra

/-- C5: the value `evaluate` computes from the oracle's reply.  A throwing
transport call is caught and yields the neutral `0.5`, but an unparseable
rating reply such as `"hello"` does not throw: `parseFloat` yields `NaN`,
the clamping keeps `NaN`, and the weighted sum is `NaN` (`none`) — not the
neutral `0.5` the claim requires, and not a scalar in `[0, 1]`. -/
theorem c5_evaluate_unparseable_reply_nan :
    evaluateScore (Except.ok "hello") = none ∧
    evaluateScore (Except.ok "hello") ≠ some (1 / 2) ∧
    evaluateScore (Except.error ()) = some (1 / 2) := by
  refine ⟨by decide, ?_, rfl⟩
  intro hcontra
  rw [show evaluateScore (Except.ok "hello") = none from by decide] at hcontra
  simp at hcontra

/-- C6: the priors `calculateActionPriors` computes from the oracle's
reply.  A throwing transport call is caught and yields the uniform
distribution, but a reply without a single parseable line — here `"abc"`
for the two candidates `["A", "B"]` — does not throw: all lines are
filtered out as `NaN` and the result is the empty list, not one
probability per candidate and not the uniform distribution. -/
theorem c6_priors_unparseable_reply_empty :
    calculateActionPriors (Except.ok "abc") ["A", "B"] = [] ∧
    calculateActionPriors (Except.ok "abc") ["A", "B"] ≠
      List.replicate (["A", "B"] : List String).length (1 / (2 : ℝ)) ∧
    calculateActionPriors (Except.error ()) ["A", "B"] =
      List.replicate (["A", "B"] : List String).length
        (1 / ((["A", "B"] : List String).length : ℝ)) := by
  refine ⟨rfl, ?_, rfl⟩
  intro hcontra
  rw [show calculateActionPriors (Except.ok "abc") ["A", "B"] = [] from rfl] at hcontra
  simp at hcontra

/-- C7: `select` does not always terminate.  On a fully-expanded,
non-terminal node with a child whose state hash is already in the
in-progress set, the loop's `continue` re-enters with the same node and the
set is never cleared, so `select` runs forever: for every iteration bound
`fuel` and every already-recorded path, the loop has not returned.  The
in-progress marker therefore does block selection, permanently. -/
theorem c7_select_in_progress_infinite_loop :
    ∀ (fuel : Nat) (path : List Nat),
      selectGo scenarioOpts loopTree [] fuel 0 path [scenarioState.hashKey] = none := by
  intro fuel
  induction fuel with
  | zero =>
    intro path
    rfl
  | succ n ih =>
    intro path
    exact ih (path ++ [0])

/-- C8: `isTerminal` holds exactly when the depth has reached `maxDepth` or
the lower-cased query contains "goodbye" or "thank you"; in particular a
state whose depth equals `maxDepth` is terminal regardless of its query,
and a state whose query contains "goodbye" is terminal at any depth. -/
theorem c8_is_terminal_characterization (opts : MCTSOptions) (s : DialogueState) :
    (isTerminal opts s = true ↔
      opts.maxDepth ≤ s.depth ∨
        (∃ pre post, (jsToLower s.currentQuery).toList = pre ++ "goodbye".toList ++ post) ∨
        (∃ pre post, (jsToLower s.currentQuery).toList = pre ++ "thank you".toList ++ post)) ∧
    (s.depth = opts.maxDepth → isTerminal opts s = true) ∧
    ((∃ pre post, (jsToLower s.currentQuery).toList = pre ++ "goodbye".toList ++ post) →
      isTerminal opts s = true) := by
  have hiff : isTerminal opts s = true ↔
      opts.maxDepth ≤ s.depth ∨
        (∃ pre post, (jsToLower s.currentQuery).toList = pre ++ "goodbye".toList ++ post) ∨
        (∃ pre post, (jsToLower s.currentQuery).toList = pre ++ "thank you".toList ++ post) := by
    unfold isTerminal
    simp [Bool.or_eq_true, decide_eq_true_eq, jsIncludes_iff]
    exact or_assoc
  refine ⟨hiff, ?_, ?_⟩
  · intro hd
    exact hiff.mpr (Or.inl (le_of_eq hd.symm))
  · intro hg
    exact hiff.mpr (Or.inr (Or.inl hg))

/-- Witness for `c8_is_terminal_characterization`: a state at
`depth = maxDepth = 3` is terminal though its query holds no closing
phrase, and a depth-0 state whose query is "GOODBYE" is terminal. -/
theorem c8_is_terminal_characterization_witness :
    isTerminal
      { maxDepth := 3, maxChildren := 2, explorationConstant := 3 / 2,
        temperature := 4 / 5, useRAVE := true }
      { systemPrompt := "", conversationHistory := [], currentQuery := "hello", depth := 3 } =
      true ∧
    isTerminal
      { maxDepth := 5, maxChildren := 2, explorationConstant := 3 / 2,
        temperature := 4 / 5, useRAVE := true }
      { systemPrompt := "", conversationHistory := [], currentQuery := "GOODBYE", depth := 0 } =
      true :=
  ⟨(c8_is_terminal_characterization _ _).2.1 rfl,
   (c8_is_terminal_characterization _ _).2.2 ⟨[], [], by decide⟩⟩

/-- C9: `getPUCTScore` is unguarded against a zero denominator in the blend
weight: on a node with `visits = 0` and `raveVisits = 0`, whenever
`priorProbability * totalParentVisits = 0` the weight is the division
`0 / 0`, i.e. `NaN`, and the whole score is `NaN` (`none`), not a real
number in any range. -/
theorem c9_puct_score_nan (totalValue raveValue : JVal)
    (totalParentVisits priorProbability : ℝ)
    (h : priorProbability * totalParentVisits = 0) :
    getPUCTScore 0 0 totalValue raveValue totalParentVisits priorProbability = none := by
  have hd : ((0 : Nat) : ℝ) + ((0 : Nat) : ℝ) + 4 * priorProbability * totalParentVisits = 0 := by
    push_cast
    rw [mul_assoc, h, mul_zero]
    ring
  simp only [getPUCTScore]
  rw [hd]
  simp [jdiv, jmul_none_left, jsub_none_right, jadd_none_left]

/-- Witness for `c9_puct_score_nan`: a fresh node (`visits = 0`,
`raveVisits = 0`) scored against a parent with 0 visits yields `NaN`. -/
theorem c9_puct_score_nan_witness :
    ((1 / 2 : ℝ) * 0 = 0) ∧
    getPUCTScore 0 0 (some 0) (some 0) 0 (1 / 2) = none :=
  ⟨by norm_num, c9_puct_score_nan (some 0) (some 0) 0 (1 / 2) (by norm_num)⟩

/-- C10: on a terminal initial state the search is a no-op: the result does
not depend on the oracle at all (no oracle call is made, so no expansion,
rollout or backpropagation happens), the returned action is the empty
string, the root keeps 0 visits and no children, and the arena still holds
only the root. -/
theorem c10_terminal_initial_state_noop (o o' : Oracle) (opts : MCTSOptions)
    (simulationDepth numSimulations fuel : Nat) (s : DialogueState)
    (hterm : isTerminal opts s = true) :
    runSearch o opts simulationDepth numSimulations (fuel + 1) s =
      runSearch o' opts simulationDepth numSimulations (fuel + 1) s ∧
    (runSearch o opts simulationDepth numSimulations (fuel + 1) s).map
      (fun p => (p.1, rootVisitCount p.2, rootChildList p.2, p.2.tree.nodes.length)) =
      some ("", 0, [], 1) := by
  have h1 := runSearch_terminal o opts simulationDepth numSimulations fuel s hterm
  have h2 := runSearch_terminal o' opts simulationDepth numSimulations fuel s hterm
  refine ⟨h1.trans h2.symm, ?_⟩
  rw [h1]
  rfl

/-- Witness for `c10_terminal_initial_state_noop`: two different oracles on
a "goodbye" initial state produce identical, empty results. -/
theorem c10_terminal_initial_state_noop_witness :
    isTerminal scenarioOpts goodbyeState = true ∧
    (runSearch emptyOracle scenarioOpts 5 2 1 goodbyeState =
        runSearch scenarioOracle scenarioOpts 5 2 1 goodbyeState ∧
      (runSearch emptyOracle scenarioOpts 5 2 1 goodbyeState).map
        (fun p => (p.1, rootVisitCount p.2, rootChildList p.2, p.2.tree.nodes.length)) =
        some ("", 0, [], 1)) :=
  ⟨by decide,
   c10_terminal_initial_state_noop emptyOracle scenarioOracle scenarioOpts 5 2 0
     goodbyeState (by decide)⟩

end MctsModel
